import Mathlib

/-!
# Verification of the Calculator-GUI-PyQt expression evaluator

Shallow embedding of `src/Calculator-Python.py`.

* Python numbers (the only values the calculator handles) are modelled by
  `Value`: a tagged union of arbitrary-precision integers (`VInt`) and
  floating-point numbers (`VFloat`).  Floats are modelled exactly, as
  rationals in lowest terms (`PyFloat`); every float arising in the
  verified claims has a short exact decimal expansion, where IEEE-754
  doubles and exact rationals agree.
* The Python `ast` node types that can reach `SafeEvaluator.visit` are
  modelled by `Node`; node kinds outside the calculator grammar
  (identifiers, calls, comparisons, attribute access, non-numeric
  constants) are included so that the evaluator's rejection paths
  (lines 58-68 of the source) are real code here as well.
* `SafeEvaluator.visit` / `visit_BinOp` / `visit_UnaryOp` become `visit`,
  `applyBinOp`, `applyUnaryOp`, with Python exceptions modelled by
  `Except Err`.  Python's `ZeroDivisionError` is `Err.zeroDivision`,
  `ValueError` is `Err.valueError`.
* The source delegates string parsing to Python's `ast.parse(expr,
  mode='eval')`, which is interpreter code, not code of this repository;
  the arithmetic fragment it accepts is modelled from the spec's grammar
  (`tokenize` / `parseAdd` ... `parseAtom`).
* The GUI actions that the claims mention (`calculate`, the `%` button
  branch of `on_button_clicked`, `toggle_sign`) are modelled as functions
  from the display text to the new display text.
-/

namespace Calc

/-- Python runtime faults that can escape `SafeEvaluator`:
`zeroDivision` models `ZeroDivisionError`, `valueError` models
`ValueError` (both the evaluator's own rejections and the
`ValueError("Syntax error")` that `safe_eval` wraps parse failures in).
`complexPow` marks the one branch outside the numeric value model: a
negative base raised to a genuinely fractional exponent, which Python
evaluates to a *complex* number; the spec directs that this case "is
permitted to produce a domain error or a complex-like failure — treat as
`EvaluationError`", and no verified claim depends on it. -/
inductive Err where
  | zeroDivision
  | valueError
  | complexPow
deriving DecidableEq, Repr

/-- An exact rational `num / den`, the model of a Python float.  All
values are built by the smart constructor `PyFloat.norm`, which keeps
them in lowest terms with a positive denominator, so `den = 1` coincides
with Python's `float.is_integer()`. -/
structure PyFloat where
  num : Int
  den : Nat
deriving DecidableEq, Repr

namespace PyFloat

/-- Smart constructor: `n / d` reduced to lowest terms.  `d = 0` never
arises (every division below guards its divisor); the `g = 0` branch only
makes the function total. -/
def norm (n : Int) (d : Nat) : PyFloat :=
  let g := Nat.gcd n.natAbs d
  if g = 0 then ⟨0, 1⟩ else ⟨n / (g : Int), d / g⟩

/-- The float with integer value `n` (Python's `float(n)`). -/
def ofInt (n : Int) : PyFloat := ⟨n, 1⟩

/-- Exact rational addition. -/
def add (q r : PyFloat) : PyFloat :=
  norm (q.num * (r.den : Int) + r.num * (q.den : Int)) (q.den * r.den)

/-- Exact rational subtraction. -/
def sub (q r : PyFloat) : PyFloat :=
  norm (q.num * (r.den : Int) - r.num * (q.den : Int)) (q.den * r.den)

/-- Exact rational multiplication. -/
def mul (q r : PyFloat) : PyFloat :=
  norm (q.num * r.num) (q.den * r.den)

/-- Exact rational division (the divisor is non-zero at every use). -/
def div (q r : PyFloat) : PyFloat :=
  norm (q.num * (r.den : Int) * (if r.num < 0 then -1 else 1))
    (q.den * r.num.natAbs)

/-- Negation. -/
def neg (q : PyFloat) : PyFloat := ⟨-q.num, q.den⟩

/-- `q ^ k` for a natural exponent. -/
def npow (q : PyFloat) (k : Nat) : PyFloat :=
  norm (q.num ^ k) (q.den ^ k)

/-- `⌊q⌋`, the floor of the rational (`den` is positive at every use). -/
def floor (q : PyFloat) : Int := Int.fdiv q.num (q.den : Int)

/-- `⌊m ^ (1/k)⌋` by binary search (helper for `powFrac`). -/
def natRootAux : Nat → Nat → Nat → Nat → Nat → Nat
  | 0, _, _, lo, _ => lo
  | fuel + 1, k, m, lo, hi =>
      if hi ≤ lo + 1 then lo
      else
        let mid := (lo + hi) / 2
        if mid ^ k ≤ m then natRootAux fuel k m mid hi
        else natRootAux fuel k m lo mid

/-- `⌊m ^ (1/k)⌋` for `k ≥ 1`. -/
def natRoot (k m : Nat) : Nat := natRootAux (m + 2) k m 0 (m + 1)

/-- The source's `a ** b` for a *positive* base `x` and genuinely
fractional exponent `p / q`: Python computes the IEEE-754 double nearest
to the real number `x ^ (p/q)`, interpreter/hardware arithmetic outside
this repository.  The rational model returns a 17-digit decimal
approximation of that real (the exact value is irrational in general).
No verified claim depends on the returned digits — only on the fact,
stated by the spec's promotion rule, that this path succeeds with a
float. -/
def powFrac (x : PyFloat) (p : Int) (q : Nat) : PyFloat :=
  let z := if 0 ≤ p then npow x p.toNat else npow ⟨(x.den : Int), x.num.natAbs⟩ (-p).toNat
  let scale : Nat := 10 ^ 17
  norm (natRoot q (scale ^ q * z.num.natAbs / z.den)) scale

end PyFloat

/-- A Python number as the evaluator can produce it: `int` (arbitrary
precision), `float` (modelled exactly as a rational), or `bool`.
Booleans are values here because Python's `bool` subclasses `int`: the
source's `isinstance(node.value, (int, float))` check on line 59 accepts
`True`/`False`, and arithmetic treats them as 1/0. -/
inductive Value where
  | VInt (n : Int)
  | VFloat (q : PyFloat)
  | VBool (b : Bool)
deriving DecidableEq, Repr

/-- Python's implicit widening to `float`, applied by the arithmetic
operators whenever at least one operand is a float (`True` counts as
1.0, `False` as 0.0). -/
def toPy : Value → PyFloat
  | .VInt n => .ofInt n
  | .VFloat q => q
  | .VBool b => .ofInt (if b then 1 else 0)

/-- The integer a value stands for when it is `int`-like (an `int`, or a
`bool` — Python's `bool` subclasses `int`, `True` counting as 1 and
`False` as 0); `none` on floats.  Binary arithmetic stays in the integer
domain exactly when both operands are int-like. -/
def intLike : Value → Option Int
  | .VInt n => some n
  | .VBool b => some (if b then 1 else 0)
  | .VFloat _ => none

/-- Whether a value is numerically zero — the condition under which
Python's `/`, `%`, `//` (and `0 ** negative`) raise `ZeroDivisionError`. -/
def isZeroValue : Value → Bool
  | .VInt n => n == 0
  | .VFloat q => q.num == 0
  | .VBool b => b == false

/-- Whether a value is a Python `float`. -/
def isFloatValue : Value → Bool
  | .VFloat _ => true
  | _ => false

/-- Python constant payloads that `ast.Constant` can carry.
Only `int` and `float` pass the `isinstance(node.value, (int, float))`
check on line 59 of the source. -/
inductive PyConst where
  | int (n : Int)
  | float (q : PyFloat)
  | bool (b : Bool)
  | str (s : String)
  | none
deriving DecidableEq, Repr

/-- The binary-operator node classes of Python's `ast` module.  The first
seven are the keys of `SafeEvaluator.ALLOWED_BINOPS` (lines 33-41); the
rest exist in Python's grammar but are absent from the table, so
`visit_BinOp` rejects them (line 79). -/
inductive BinOpKind where
  | Add | Sub | Mult | Div | Pow | Mod | FloorDiv
  | MatMult | LShift | RShift | BitOr | BitXor | BitAnd
deriving DecidableEq, Repr

/-- The unary-operator node classes of Python's `ast` module.  `UAdd` and
`USub` are the keys of `SafeEvaluator.ALLOWED_UNARYOPS` (lines 43-46);
`Not` and `Invert` are absent from the table, so `visit_UnaryOp` rejects
them (line 86). -/
inductive UnaryOpKind where
  | UAdd | USub | Not | Invert
deriving DecidableEq, Repr

/-- Python `ast` expression nodes as seen by `SafeEvaluator.visit`.
`Expression` is the `mode='eval'` wrapper.  `Name`, `Call`, `Compare` and
`Attribute` stand for the node kinds outside the calculator grammar that
`visit` rejects through its final `else` branch (line 68); `visit` never
recurses into them, so their payloads are carried but never inspected. -/
inductive Node where
  | Expression (body : Node)
  | BinOp (left : Node) (op : BinOpKind) (right : Node)
  | UnaryOp (op : UnaryOpKind) (operand : Node)
  | Constant (value : PyConst)
  | Name (id : String)
  | Call (func : Node) (argCount : Nat)
  | Compare (left : Node)
  | Attribute (obj : Node) (attr : String)
deriving DecidableEq, Repr

/-- `ALLOWED_BINOPS[ast.Add] = lambda a, b: a + b` with Python's numeric
promotion: int-like + int-like stays `int` (bools add as 1/0, `True +
True = 2`), any float operand makes the result a float. -/
def pyAdd (a b : Value) : Value :=
  match intLike a, intLike b with
  | some x, some y => .VInt (x + y)
  | _, _ => .VFloat (PyFloat.add (toPy a) (toPy b))

/-- `lambda a, b: a - b` with Python's numeric promotion. -/
def pySub (a b : Value) : Value :=
  match intLike a, intLike b with
  | some x, some y => .VInt (x - y)
  | _, _ => .VFloat (PyFloat.sub (toPy a) (toPy b))

/-- `lambda a, b: a * b` with Python's numeric promotion. -/
def pyMult (a b : Value) : Value :=
  match intLike a, intLike b with
  | some x, some y => .VInt (x * y)
  | _, _ => .VFloat (PyFloat.mul (toPy a) (toPy b))

/-- `lambda a, b: a / b`: Python's true division always produces a float
and raises `ZeroDivisionError` on a zero divisor. -/
def pyDiv (a b : Value) : Except Err Value :=
  if isZeroValue b then .error .zeroDivision
  else .ok (.VFloat (PyFloat.div (toPy a) (toPy b)))

/-- `lambda a, b: a % b`: Python's modulo.  On int-like operands the
result is an `int` taking the sign of the divisor (floor modulo, Lean's
`Int.fmod`); with a float operand the result is the float
`a - b * floor(a / b)`.  A zero divisor raises `ZeroDivisionError`. -/
def pyMod (a b : Value) : Except Err Value :=
  match intLike a, intLike b with
  | some x, some y =>
      if y = 0 then .error .zeroDivision else .ok (.VInt (Int.fmod x y))
  | _, _ =>
      let x := toPy a
      let y := toPy b
      if y.num = 0 then .error .zeroDivision
      else .ok (.VFloat (PyFloat.sub x
        (PyFloat.mul y (PyFloat.ofInt (PyFloat.floor (PyFloat.div x y))))))

/-- `lambda a, b: a // b`: Python's floor division.  Int-like `//`
int-like is an `int`; with a float operand the result is the float
`floor(a / b)`.  A zero divisor raises `ZeroDivisionError`. -/
def pyFloorDiv (a b : Value) : Except Err Value :=
  match intLike a, intLike b with
  | some x, some y =>
      if y = 0 then .error .zeroDivision else .ok (.VInt (Int.fdiv x y))
  | _, _ =>
      let x := toPy a
      let y := toPy b
      if y.num = 0 then .error .zeroDivision
      else .ok (.VFloat (PyFloat.ofInt (PyFloat.floor (PyFloat.div x y))))

/-- `lambda a, b: a ** b`: Python's power.  Int-like `**` int-like with
a non-negative exponent is an `int`; a negative exponent yields a float
(`0 ** negative` raises `ZeroDivisionError`).  With a float operand and
an integral exponent the same rules apply in the float domain.  For a
genuinely fractional exponent Python returns a float when the base is
positive (modelled by `PyFloat.powFrac`, see its doc comment), `0.0`
when the base is zero (`ZeroDivisionError` on a negative exponent), and
a *complex* number when the base is negative — the latter is outside
the numeric value domain and is mapped to `Err.complexPow`, the
treatment the spec directs for it; no verified claim depends on that
branch. -/
def pyPow (a b : Value) : Except Err Value :=
  match intLike a, intLike b with
  | some x, some y =>
      if 0 ≤ y then .ok (.VInt (x ^ y.toNat))
      else if x = 0 then .error .zeroDivision
      else .ok (.VFloat (PyFloat.div (PyFloat.ofInt 1) (PyFloat.ofInt (x ^ (-y).toNat))))
  | _, _ =>
      let x := toPy a
      let y := toPy b
      if y.den = 1 then
        if 0 ≤ y.num then .ok (.VFloat (PyFloat.npow x y.num.toNat))
        else if x.num = 0 then .error .zeroDivision
        else .ok (.VFloat (PyFloat.div (PyFloat.ofInt 1) (PyFloat.npow x (-y.num).toNat)))
      else
        if x.num < 0 then .error .complexPow
        else if x.num = 0 then
          if y.num < 0 then .error .zeroDivision else .ok (.VFloat ⟨0, 1⟩)
        else .ok (.VFloat (PyFloat.powFrac x y.num y.den))

/-- `SafeEvaluator.visit_BinOp` (lines 70-79) after both operands have
been visited: look the operator class up in `ALLOWED_BINOPS`, apply the
table entry (a `ZeroDivisionError` raised inside it propagates, lines
75-78), and raise `ValueError` when the operator has no entry. -/
def applyBinOp : BinOpKind → Value → Value → Except Err Value
  | .Add, a, b => .ok (pyAdd a b)
  | .Sub, a, b => .ok (pySub a b)
  | .Mult, a, b => .ok (pyMult a b)
  | .Div, a, b => pyDiv a b
  | .Pow, a, b => pyPow a b
  | .Mod, a, b => pyMod a b
  | .FloorDiv, a, b => pyFloorDiv a b
  | _, _, _ => .error .valueError

/-- `SafeEvaluator.visit_UnaryOp` (lines 81-86) after the operand has
been visited: `UAdd` is `+a`, `USub` is `-a`, anything else raises
`ValueError`.  On a boolean operand both return an `int` (Python's
`+True` is 1 and `-True` is -1, via `int.__pos__`/`int.__neg__`). -/
def applyUnaryOp : UnaryOpKind → Value → Except Err Value
  | .UAdd, .VBool b => .ok (.VInt (if b then 1 else 0))
  | .UAdd, v => .ok v
  | .USub, .VInt n => .ok (.VInt (-n))
  | .USub, .VFloat q => .ok (.VFloat (PyFloat.neg q))
  | .USub, .VBool b => .ok (.VInt (-(if b then 1 else 0)))
  | _, _ => .error .valueError

/-- `SafeEvaluator.visit` (lines 48-68): unwrap `Expression`, recurse
into `BinOp` (left before right) and `UnaryOp`, return constants passing
the `isinstance(node.value, (int, float))` check on line 59 — which
*accepts booleans*, because Python's `bool` is a subclass of `int`, so
`visit(Constant(True))` returns `True` rather than raising — and raise
`ValueError("Invalid constant")` for the remaining constants (strings,
`None`) and `ValueError("Unsupported expression: ...")` for every other
node kind. -/
def visit : Node → Except Err Value
  | .Expression body => visit body
  | .BinOp l op r => do
      let a ← visit l
      let b ← visit r
      applyBinOp op a b
  | .UnaryOp op x => do
      let v ← visit x
      applyUnaryOp op v
  | .Constant (.int n) => .ok (.VInt n)
  | .Constant (.float q) => .ok (.VFloat q)
  | .Constant (.bool b) => .ok (.VBool b)
  | .Constant _ => .error .valueError
  | _ => .error .valueError

/-! ## The parser

The source hands parsing to Python's `ast.parse(expr, mode='eval')`
(line 91), interpreter code that is not part of this repository.  The
fragment of it relevant to the calculator is modelled from the spec:
grammar `additive < multiplicative < unary < power (right-associative) <
primary`, numeric literals with optional decimal point, parentheses, and
rejection of every character outside `0-9 . + - * / ( ) %` (plus the
space, which Python's lexer skips). -/

/-- Tokens of the arithmetic fragment.  `dstar` is `**`, `dslash` is `//`. -/
inductive Tok where
  | num (v : Value)
  | plus | minus | star | slash | percent | dstar | dslash
  | lparen | rparen
deriving DecidableEq, Repr

/-- Characters the modelled lexer accepts.  Per the spec, any string with
a character outside `0-9 . + - * / ( ) %` is rejected; the space is
allowed because Python's lexer skips whitespace between tokens. -/
def allowedChar (c : Char) : Bool :=
  c.isDigit || c = '.' || c = '+' || c = '-' || c = '*' || c = '/' ||
    c = '(' || c = ')' || c = '%' || c = ' '

/-- Split a leading run of decimal digits off a character list. -/
def takeDigits : List Char → List Char × List Char
  | [] => ([], [])
  | c :: cs =>
      if c.isDigit then
        let p := takeDigits cs
        (c :: p.1, p.2)
      else ([], c :: cs)

/-- The natural number denoted by a list of decimal digits (`[] ↦ 0`). -/
def digitsToNat (ds : List Char) : Nat :=
  ds.foldl (fun acc c => acc * 10 + (c.toNat - 48)) 0

/-- Lex one numeric literal: digits, optionally a decimal point and more
digits.  A literal containing a point is a Python `float`, otherwise an
`int`; `".5"` and `"5."` are valid float forms, a bare `"."` is not. -/
def lexNumber (l : List Char) : Option (Value × List Char) :=
  let p := takeDigits l
  match p.2 with
  | '.' :: r2 =>
      let q := takeDigits r2
      if p.1.isEmpty && q.1.isEmpty then none
      else some (.VFloat (PyFloat.norm (digitsToNat (p.1 ++ q.1)) (10 ^ q.1.length)), q.2)
  | _ => if p.1.isEmpty then none else some (.VInt (digitsToNat p.1), p.2)

/-- The modelled lexer.  `fuel` only forces termination; each step
consumes at least one character, so `length + 1` fuel suffices.  `**` and
`//` are two-character tokens; any character outside `allowedChar` is a
syntax error. -/
def tokenize : Nat → List Char → Except Err (List Tok)
  | 0, _ => .error .valueError
  | _ + 1, [] => .ok []
  | fuel + 1, c :: cs =>
      if c = ' ' then tokenize fuel cs
      else if c = '+' then (tokenize fuel cs).map (Tok.plus :: ·)
      else if c = '-' then (tokenize fuel cs).map (Tok.minus :: ·)
      else if c = '(' then (tokenize fuel cs).map (Tok.lparen :: ·)
      else if c = ')' then (tokenize fuel cs).map (Tok.rparen :: ·)
      else if c = '%' then (tokenize fuel cs).map (Tok.percent :: ·)
      else if c = '*' then
        match cs with
        | '*' :: cs2 => (tokenize fuel cs2).map (Tok.dstar :: ·)
        | _ => (tokenize fuel cs).map (Tok.star :: ·)
      else if c = '/' then
        match cs with
        | '/' :: cs2 => (tokenize fuel cs2).map (Tok.dslash :: ·)
        | _ => (tokenize fuel cs).map (Tok.slash :: ·)
      else if c.isDigit || c = '.' then
        match lexNumber (c :: cs) with
        | some (v, rest) => (tokenize fuel rest).map (Tok.num v :: ·)
        | none => .error .valueError
      else .error .valueError

mutual

/-- Additive level: `term (('+' | '-') term)*`, left-associative. -/
def parseAdd : Nat → List Tok → Except Err (Node × List Tok)
  | 0, _ => .error .valueError
  | fuel + 1, ts =>
      (parseMul fuel ts).bind fun p => parseAddTail fuel p.1 p.2

/-- Fold further `+ term` / `- term` onto an already-parsed left operand. -/
def parseAddTail : Nat → Node → List Tok → Except Err (Node × List Tok)
  | 0, _, _ => .error .valueError
  | fuel + 1, acc, .plus :: ts =>
      (parseMul fuel ts).bind fun p =>
        parseAddTail fuel (.BinOp acc .Add p.1) p.2
  | fuel + 1, acc, .minus :: ts =>
      (parseMul fuel ts).bind fun p =>
        parseAddTail fuel (.BinOp acc .Sub p.1) p.2
  | _ + 1, acc, ts => .ok (acc, ts)

/-- Multiplicative level: `unary (('*' | '/' | '%' | '//') unary)*`,
left-associative. -/
def parseMul : Nat → List Tok → Except Err (Node × List Tok)
  | 0, _ => .error .valueError
  | fuel + 1, ts =>
      (parseUnary fuel ts).bind fun p => parseMulTail fuel p.1 p.2

/-- Fold further `* unary` / `/ unary` / `% unary` / `// unary` onto an
already-parsed left operand. -/
def parseMulTail : Nat → Node → List Tok → Except Err (Node × List Tok)
  | 0, _, _ => .error .valueError
  | fuel + 1, acc, .star :: ts =>
      (parseUnary fuel ts).bind fun p =>
        parseMulTail fuel (.BinOp acc .Mult p.1) p.2
  | fuel + 1, acc, .slash :: ts =>
      (parseUnary fuel ts).bind fun p =>
        parseMulTail fuel (.BinOp acc .Div p.1) p.2
  | fuel + 1, acc, .percent :: ts =>
      (parseUnary fuel ts).bind fun p =>
        parseMulTail fuel (.BinOp acc .Mod p.1) p.2
  | fuel + 1, acc, .dslash :: ts =>
      (parseUnary fuel ts).bind fun p =>
        parseMulTail fuel (.BinOp acc .FloorDiv p.1) p.2
  | _ + 1, acc, ts => .ok (acc, ts)

/-- Unary level: prefix `+` / `-` chains, then the power level. -/
def parseUnary : Nat → List Tok → Except Err (Node × List Tok)
  | 0, _ => .error .valueError
  | fuel + 1, .plus :: ts =>
      (parseUnary fuel ts).map fun p => (.UnaryOp .UAdd p.1, p.2)
  | fuel + 1, .minus :: ts =>
      (parseUnary fuel ts).map fun p => (.UnaryOp .USub p.1, p.2)
  | fuel + 1, ts => parsePower fuel ts

/-- Power level: `atom ['**' unary]`.  The right operand re-enters the
unary level, which is what makes `**` right-associative and lets a unary
minus follow it (`2**-1`), exactly as in Python's grammar. -/
def parsePower : Nat → List Tok → Except Err (Node × List Tok)
  | 0, _ => .error .valueError
  | fuel + 1, ts =>
      (parseAtom fuel ts).bind fun p =>
        match p.2 with
        | .dstar :: ts2 =>
            (parseUnary fuel ts2).map fun q => (.BinOp p.1 .Pow q.1, q.2)
        | _ => .ok p

/-- Primary level: a numeric literal or a parenthesized expression. -/
def parseAtom : Nat → List Tok → Except Err (Node × List Tok)
  | 0, _ => .error .valueError
  | _ + 1, .num v :: ts =>
      .ok (.Constant (match v with
        | .VInt n => .int n
        | .VFloat q => .float q
        | .VBool b => .bool b), ts)
  | fuel + 1, .lparen :: ts =>
      (parseAdd fuel ts).bind fun p =>
        match p.2 with
        | .rparen :: ts2 => .ok (p.1, ts2)
        | _ => .error .valueError
  | _ + 1, _ => .error .valueError

end

/-- Modelled from the spec: `ast.parse(expr, mode='eval')` restricted to
the calculator's arithmetic grammar (Python's own parser is interpreter
code outside this repository).  Lexes the string, parses one additive
expression, and requires all tokens to be consumed.  The fuel `8 *
(tokens + 1)` is a generous bound on the recursion depth; every verified
claim evaluates it on concrete input. -/
def parse (s : String) : Except Err Node :=
  (tokenize (s.toList.length + 1) s.toList).bind fun ts =>
    (parseAdd (8 * (ts.length + 1)) ts).bind fun p =>
      if p.2 = [] then .ok (.Expression p.1) else .error .valueError

/-- `safe_eval` (lines 89-95): parse (a `SyntaxError` becomes
`ValueError("Syntax error")`) and visit the resulting tree. -/
def safe_eval (s : String) : Except Err Value :=
  match parse s with
  | .error _ => .error .valueError
  | .ok t => visit t

/-! ## The GUI layer

The display widget is modelled as its text; each button handler is a
function from the current display text to the new display text. -/

/-- Decimal digits of the fraction `r / d` (with `0 ≤ r < d`), produced
by long division, stopping at a zero remainder.  The fuel bounds the
number of digits; every float value in the verified claims has a short
terminating decimal expansion, on which this agrees with Python's
shortest-roundtrip `repr`. -/
def fracDigits : Nat → Nat → Nat → String
  | 0, _, _ => ""
  | _ + 1, 0, _ => ""
  | fuel + 1, r, d =>
      String.singleton (Nat.digitChar (r * 10 / d)) ++ fracDigits fuel (r * 10 % d) d

/-- `str` on a Python float: sign, integer part, a decimal point, and the
fractional digits — with the mandatory trailing `.0` on integral floats
(`str(5.0) = "5.0"`). -/
def floatStr (q : PyFloat) : String :=
  let sign := if q.num < 0 then "-" else ""
  let n := q.num.natAbs
  let d := q.den
  if n % d = 0 then sign ++ toString (n / d) ++ ".0"
  else sign ++ toString (n / d) ++ "." ++ fracDigits 32 (n % d) d

/-- `str` on a Python number: `str(int)` is the plain decimal form,
`str(float)` always carries a decimal point, and `str(bool)` is the
keyword spelling. -/
def pyStr : Value → String
  | .VInt n => toString n
  | .VFloat q => floatStr q
  | .VBool b => if b then "True" else "False"

/-- Line 214's test `isinstance(result, float) and result.is_integer()`
followed by `result = int(result)`: an integral float collapses to an
int before display; everything else is left alone. -/
def pyNormalize : Value → Value
  | .VFloat q => if q.den = 1 then .VInt q.num else .VFloat q
  | v => v

/-- Python's `-val` on a number (used by `toggle_sign`); `-True` is the
`int` -1. -/
def pyNeg : Value → Value
  | .VInt n => .VInt (-n)
  | .VFloat q => .VFloat (PyFloat.neg q)
  | .VBool b => .VInt (-(if b then 1 else 0))

/-- Python's `val / 100` (used by the `%` button): true division always
yields a float. -/
def pyDivBy100 (v : Value) : Value :=
  .VFloat (PyFloat.div (toPy v) (PyFloat.ofInt 100))

/-- `Calculator.calculate` (lines 208-220): an empty display is a no-op
(`if not expr: return`) and `safe_eval` is never reached; otherwise the
display shows the normalized result's string, `'Division by zero'` on a
`ZeroDivisionError`, or `'Error'` on any other exception. -/
def calculate (d : String) : String :=
  if d = "" then d
  else
    match safe_eval d with
    | .ok v => pyStr (pyNormalize v)
    | .error .zeroDivision => "Division by zero"
    | .error _ => "Error"

/-- The `'%'` branch of `Calculator.on_button_clicked` (lines 171-178):
with a non-empty display, evaluate the whole display text, divide by 100
and show `str(val / 100)` — with no integral-float normalization; every
exception (`ZeroDivisionError` included) shows `'Error'`. -/
def percentButton (d : String) : String :=
  if d = "" then d
  else
    match safe_eval d with
    | .ok v => pyStr (pyDivBy100 v)
    | .error _ => "Error"

/-- `Calculator.toggle_sign` (lines 199-206): with a non-empty display,
evaluate the whole display text and show `str(-val)`; every exception
shows `'Error'`. -/
def toggle_sign (d : String) : String :=
  if d = "" then d
  else
    match safe_eval d with
    | .ok v => pyStr (pyNeg v)
    | .error _ => "Error"

/-! ## Auxiliary predicates used by the claims -/

/-- Does a tree contain a construct the evaluator rejects — an
identifier, a call, a comparison, an attribute access, or a string or
`None` constant?  Boolean constants are *not* here: the source's
`isinstance(node.value, (int, float))` accepts them (Python `bool`
subclasses `int`), see `C1_counterexample`.  (The `BinOp`/`UnaryOp` node
kinds themselves are in the grammar; their operator tags are checked
separately by the evaluator's tables.) -/
def hasBadNode : Node → Bool
  | .Expression b => hasBadNode b
  | .BinOp l _ r => hasBadNode l || hasBadNode r
  | .UnaryOp _ x => hasBadNode x
  | .Constant (.int _) => false
  | .Constant (.float _) => false
  | .Constant (.bool _) => false
  | _ => true

/-- Does a tree contain a `Div`, `Mod` or `FloorDiv` operation? -/
def usesDivLike : Node → Bool
  | .Expression b => usesDivLike b
  | .BinOp l op r =>
      op == .Div || op == .Mod || op == .FloorDiv || usesDivLike l || usesDivLike r
  | .UnaryOp _ x => usesDivLike x
  | .Call f _ => usesDivLike f
  | .Compare l => usesDivLike l
  | .Attribute o _ => usesDivLike o
  | _ => false

instance {ε α : Type} [DecidableEq ε] [DecidableEq α] : DecidableEq (Except ε α) := fun a b =>
  match a, b with
  | .ok x, .ok y =>
      if h : x = y then .isTrue (by rw [h]) else .isFalse (fun hc => h (Except.ok.inj hc))
  | .error e, .error f =>
      if h : e = f then .isTrue (by rw [h]) else .isFalse (fun hc => h (Except.error.inj hc))
  | .ok _, .error _ => .isFalse (fun hc => Except.noConfusion hc)
  | .error _, .ok _ => .isFalse (fun hc => Except.noConfusion hc)

/-! ## Theorems -/

theorem except_bind_error {α β : Type} (e : Err) (f : α → Except Err β) :
    (Except.error e >>= f : Except Err β) = Except.error e := rfl

theorem except_bind_ok {α β : Type} (a : α) (f : α → Except Err β) :
    (Except.ok a >>= f : Except Err β) = f a := rfl

/-- **C4.** Multiplicative operators bind tighter than additive ones and
parentheses override precedence: `2+3*4` evaluates to 14 and `(2+3)*4`
to 20, both through `safe_eval` and on the display via `calculate`. -/
theorem C4_precedence :
    safe_eval "2+3*4" = .ok (.VInt 14) ∧ calculate "2+3*4" = "14" ∧
    safe_eval "(2+3)*4" = .ok (.VInt 20) ∧ calculate "(2+3)*4" = "20" := by
  decide

/-- **C5.** The power operator `**` is right-associative: `2**3**2`
parses as `2**(3**2)` and evaluates to 512, not to `(2**3)**2 = 64`. -/
theorem C5_power_right_assoc :
    parse "2**3**2" = .ok (.Expression (.BinOp (.Constant (.int 2)) .Pow
      (.BinOp (.Constant (.int 3)) .Pow (.Constant (.int 2))))) ∧
    safe_eval "2**3**2" = .ok (.VInt 512) ∧
    calculate "2**3**2" = "512" ∧
    safe_eval "2**3**2" ≠ .ok (.VInt 64) := by
  decide

/-- **C7.** On an empty display the evaluate action is a no-op: the
display is left unchanged and evaluation is never reached (the percent
and sign-toggle handlers guard the empty display the same way; had
`safe_eval` been invoked on the empty string it would have failed, and
the display would read `'Error'` instead of staying empty). -/
theorem C7_empty_display_noop :
    calculate "" = "" ∧ toggle_sign "" = "" ∧ percentButton "" = "" ∧
    safe_eval "" = .error .valueError := by
  decide

/-- **C8.** The percent button re-evaluates the full display text and
divides by 100: `"50"` becomes `"0.5"`, and `"12+5"` is first evaluated
to 17 and then divided by 100 to give `"0.17"` — not `"12.05"`, which
converting only the trailing `5` would produce. -/
theorem C8_percent_full_reeval :
    percentButton "50" = "0.5" ∧
    safe_eval "12+5" = .ok (.VInt 17) ∧
    percentButton "12+5" = "0.17" ∧
    percentButton "12+5" ≠ "12.05" := by
  decide

/-- **C9.** The sign-toggle button negates the evaluated display value:
`"42"` becomes `"-42"`, `"-42"` becomes `"42"`, and toggling twice
returns to `"42"`. -/
theorem C9_toggle_sign :
    toggle_sign "42" = "-42" ∧ toggle_sign "-42" = "42" ∧
    toggle_sign (toggle_sign "42") = "42" := by
  decide

/-- **C10.** The division-by-zero fault is not exclusive to `/`, `%`,
`//`: the input `0**-1`, whose tree contains no `Div`, `Mod` or
`FloorDiv` node, also raises it (Python's `0 ** -1` raises
`ZeroDivisionError`), and the display shows the distinct
division-by-zero message. -/
theorem C10_pow_raises_zero_division :
    parse "0**-1" = .ok (.Expression (.BinOp (.Constant (.int 0)) .Pow
      (.UnaryOp .USub (.Constant (.int 1))))) ∧
    usesDivLike (.Expression (.BinOp (.Constant (.int 0)) .Pow
      (.UnaryOp .USub (.Constant (.int 1))))) = false ∧
    safe_eval "0**-1" = .error .zeroDivision ∧
    calculate "0**-1" = "Division by zero" := by
  decide

/-- **C2.** Every `Div`, `Mod` or `FloorDiv` application whose right
operand is numerically zero fails with the division-by-zero error (the
`ZeroDivisionError` raised by the underlying arithmetic propagates
through `visit_BinOp`'s re-raise and never reaches the caller as
anything else); on `5/0`, `5%0`, `5//0` the evaluation fails that way
and `calculate` maps it to the distinct `'Division by zero'` message. -/
theorem C2_div_mod_floordiv_by_zero :
    (∀ (a b : Value), isZeroValue b = true →
        applyBinOp .Div a b = .error .zeroDivision ∧
        applyBinOp .Mod a b = .error .zeroDivision ∧
        applyBinOp .FloorDiv a b = .error .zeroDivision) ∧
    safe_eval "5/0" = .error .zeroDivision ∧
    safe_eval "5%0" = .error .zeroDivision ∧
    safe_eval "5//0" = .error .zeroDivision ∧
    calculate "5/0" = "Division by zero" ∧
    calculate "5%0" = "Division by zero" ∧
    calculate "5//0" = "Division by zero" := by
  refine ⟨?_, by decide, by decide, by decide, by decide, by decide, by decide⟩
  intro a b hz
  refine ⟨?_, ?_, ?_⟩
  · simp [applyBinOp, pyDiv, hz]
  · cases a <;> cases b <;>
      simp_all [applyBinOp, pyMod, intLike, isZeroValue, toPy, PyFloat.ofInt]
  · cases a <;> cases b <;>
      simp_all [applyBinOp, pyFloorDiv, intLike, isZeroValue, toPy, PyFloat.ofInt]

theorem C2_div_mod_floordiv_by_zero_witness :
    isZeroValue (.VInt 0) = true ∧
    applyBinOp .Div (.VInt 5) (.VInt 0) = .error .zeroDivision ∧
    applyBinOp .Mod (.VInt 5) (.VInt 0) = .error .zeroDivision ∧
    applyBinOp .FloorDiv (.VInt 5) (.VInt 0) = .error .zeroDivision :=
  ⟨by decide,
   (C2_div_mod_floordiv_by_zero.1 (.VInt 5) (.VInt 0) (by decide)).1,
   (C2_div_mod_floordiv_by_zero.1 (.VInt 5) (.VInt 0) (by decide)).2.1,
   (C2_div_mod_floordiv_by_zero.1 (.VInt 5) (.VInt 0) (by decide)).2.2⟩

/-- **C3.** Integer operands under `+ - *` give integer results; *any*
operation with a float operand gives a float result — addition,
subtraction and multiplication by exact equations, true division always
(`Div`), modulo and floor division whenever the divisor is non-zero
(`Mod`, `FloorDiv`), and power both in the "whatever succeeds is a
float" form and as successes: a non-negative integral exponent on a
float base, and a positive base under a genuinely fractional exponent
(Python's `2 ** 0.5`).  Concretely `4+5` evaluates to the integer 9
(displayed `"9"`) and `1/2` evaluates to the float 0.5 (displayed
`"0.5"`). -/
theorem C3_numeric_promotion :
    (∀ a b : Int,
        applyBinOp .Add (.VInt a) (.VInt b) = .ok (.VInt (a + b)) ∧
        applyBinOp .Sub (.VInt a) (.VInt b) = .ok (.VInt (a - b)) ∧
        applyBinOp .Mult (.VInt a) (.VInt b) = .ok (.VInt (a * b))) ∧
    (∀ (q : PyFloat) (v : Value),
        applyBinOp .Add (.VFloat q) v = .ok (.VFloat (PyFloat.add q (toPy v))) ∧
        applyBinOp .Add v (.VFloat q) = .ok (.VFloat (PyFloat.add (toPy v) q)) ∧
        applyBinOp .Sub (.VFloat q) v = .ok (.VFloat (PyFloat.sub q (toPy v))) ∧
        applyBinOp .Sub v (.VFloat q) = .ok (.VFloat (PyFloat.sub (toPy v) q)) ∧
        applyBinOp .Mult (.VFloat q) v = .ok (.VFloat (PyFloat.mul q (toPy v))) ∧
        applyBinOp .Mult v (.VFloat q) = .ok (.VFloat (PyFloat.mul (toPy v) q))) ∧
    (∀ a b : Value, isZeroValue b = false →
        applyBinOp .Div a b = .ok (.VFloat (PyFloat.div (toPy a) (toPy b)))) ∧
    (∀ a b : Value, (isFloatValue a || isFloatValue b) = true → isZeroValue b = false →
        (∃ r, applyBinOp .Mod a b = .ok (.VFloat r)) ∧
        (∃ r, applyBinOp .FloorDiv a b = .ok (.VFloat r))) ∧
    (∀ (a b v : Value), (isFloatValue a || isFloatValue b) = true →
        applyBinOp .Pow a b = .ok v → isFloatValue v = true) ∧
    (∀ (q : PyFloat) (n : Int), 0 ≤ n →
        applyBinOp .Pow (.VFloat q) (.VInt n) = .ok (.VFloat (PyFloat.npow q n.toNat))) ∧
    (∀ (a : Value) (q : PyFloat), 0 < (toPy a).num → q.den ≠ 1 →
        ∃ r, applyBinOp .Pow a (.VFloat q) = .ok (.VFloat r)) ∧
    safe_eval "4+5" = .ok (.VInt 9) ∧ calculate "4+5" = "9" ∧
    safe_eval "1/2" = .ok (.VFloat ⟨1, 2⟩) ∧ calculate "1/2" = "0.5" := by
  refine ⟨?_, ?_, ?_, ?_, ?_, ?_, ?_, by decide, by decide, by decide, by decide⟩
  · intro a b
    exact ⟨rfl, rfl, rfl⟩
  · intro q v
    cases v <;> exact ⟨rfl, rfl, rfl, rfl, rfl, rfl⟩
  · intro a b h
    simp [applyBinOp, pyDiv, h]
  · intro a b hf hz
    constructor
    · cases a <;> cases b <;>
        simp_all [applyBinOp, pyMod, intLike, isZeroValue, isFloatValue, toPy, PyFloat.ofInt]
    · cases a <;> cases b <;>
        simp_all [applyBinOp, pyFloorDiv, intLike, isZeroValue, isFloatValue, toPy, PyFloat.ofInt]
  · intro a b v hf hok
    cases a <;> cases b <;>
      simp only [applyBinOp, pyPow, intLike] at hok <;>
      simp_all [isFloatValue] <;>
      (repeat' split at hok) <;>
      (try simp_all [isFloatValue]) <;>
      (try subst hok) <;>
      (try rfl)
  · intro q n hn
    simp [applyBinOp, pyPow, intLike, toPy, PyFloat.ofInt, hn]
  · intro a q hpos hden
    cases a with
    | VInt n =>
        simp only [toPy, PyFloat.ofInt] at hpos
        exact ⟨PyFloat.powFrac (PyFloat.ofInt n) q.num q.den,
          by simp [applyBinOp, pyPow, intLike, toPy, PyFloat.ofInt, hden,
               show ¬ n < 0 by omega, show ¬ n = 0 by omega]⟩
    | VFloat p =>
        simp only [toPy] at hpos
        exact ⟨PyFloat.powFrac p q.num q.den,
          by simp [applyBinOp, pyPow, intLike, toPy, hden,
               show ¬ p.num < 0 by omega, show ¬ p.num = 0 by omega]⟩
    | VBool b =>
        cases b with
        | false => simp [toPy, PyFloat.ofInt] at hpos
        | true =>
            exact ⟨PyFloat.powFrac (PyFloat.ofInt 1) q.num q.den,
              by simp [applyBinOp, pyPow, intLike, toPy, PyFloat.ofInt, hden]⟩

theorem C3_numeric_promotion_witness :
    applyBinOp .Add (.VInt 4) (.VInt 5) = .ok (.VInt 9) ∧
    applyBinOp .Mult (.VFloat ⟨1, 2⟩) (.VInt 3) =
      .ok (.VFloat (PyFloat.mul ⟨1, 2⟩ (toPy (.VInt 3)))) ∧
    isZeroValue (.VInt 2) = false ∧
    applyBinOp .Div (.VInt 1) (.VInt 2) =
      .ok (.VFloat (PyFloat.div (toPy (.VInt 1)) (toPy (.VInt 2)))) ∧
    (∃ r, applyBinOp .Mod (.VFloat ⟨11, 2⟩) (.VInt 2) = .ok (.VFloat r)) ∧
    (∃ r, applyBinOp .FloorDiv (.VFloat ⟨11, 2⟩) (.VInt 2) = .ok (.VFloat r)) ∧
    isFloatValue (.VFloat ⟨4, 1⟩) = true ∧
    applyBinOp .Pow (.VFloat ⟨2, 1⟩) (.VInt 2) = .ok (.VFloat (PyFloat.npow ⟨2, 1⟩ 2)) ∧
    (∃ r, applyBinOp .Pow (.VInt 2) (.VFloat ⟨1, 2⟩) = .ok (.VFloat r)) :=
  ⟨(C3_numeric_promotion.1 4 5).1,
   (C3_numeric_promotion.2.1 ⟨1, 2⟩ (.VInt 3)).2.2.2.2.1,
   by decide,
   C3_numeric_promotion.2.2.1 (.VInt 1) (.VInt 2) (by decide),
   (C3_numeric_promotion.2.2.2.1 (.VFloat ⟨11, 2⟩) (.VInt 2) (by decide) (by decide)).1,
   (C3_numeric_promotion.2.2.2.1 (.VFloat ⟨11, 2⟩) (.VInt 2) (by decide) (by decide)).2,
   C3_numeric_promotion.2.2.2.2.1 (.VFloat ⟨2, 1⟩) (.VInt 2) (.VFloat ⟨4, 1⟩)
     (by decide) (by decide),
   C3_numeric_promotion.2.2.2.2.2.1 ⟨2, 1⟩ 2 (by decide),
   C3_numeric_promotion.2.2.2.2.2.2.1 (.VInt 2) ⟨1, 2⟩ (by decide) (by decide)⟩

/-- **C6 (counterexample).** The claim extends the "no trailing
fractional part on integral results" rendering rule to every
display-updating action, the percent transform included; but the percent
handler shows `str(val / 100)` with no integral-float collapse, so the
integral result of `500 % ` is displayed `"5.0"`, not `"5"`. -/
theorem C6_counterexample :
    safe_eval "500" = .ok (.VInt 500) ∧
    percentButton "500" = "5.0" ∧
    percentButton "500" ≠ "5" := by
  decide

/-- **C6 (amended).** For the evaluate action (`=` / `calculate`) the
rendering rule does hold: an integral result (an `int`, or a float with
`is_integer()`) is displayed as a plain integer string with no
fractional part, and a non-integral result in standard decimal notation
(`floatStr`); the percent and sign-toggle transforms are not covered by
the rule (they render the raw float string, see `C6_counterexample`). -/
theorem C6_calculate_rendering :
    ∀ (d : String) (v : Value), safe_eval d = .ok v → d ≠ "" →
      (∀ n : Int, v = .VInt n → calculate d = toString n) ∧
      (∀ q : PyFloat, v = .VFloat q → q.den = 1 → calculate d = toString q.num) ∧
      (∀ q : PyFloat, v = .VFloat q → q.den ≠ 1 → calculate d = floatStr q) := by
  intro d v hv hd
  refine ⟨?_, ?_, ?_⟩
  · intro n hn
    subst hn
    simp [calculate, hd, hv, pyNormalize, pyStr]
  · intro q hq hden
    subst hq
    simp [calculate, hd, hv, pyNormalize, hden, pyStr]
  · intro q hq hden
    subst hq
    simp [calculate, hd, hv, pyNormalize, hden, pyStr]

theorem C6_calculate_rendering_witness :
    calculate "4+5" = toString (9 : Int) ∧
    calculate "3.5-1.5" = toString (2 : Int) ∧
    calculate "1/2" = floatStr ⟨1, 2⟩ :=
  ⟨(C6_calculate_rendering "4+5" (.VInt 9) (by decide) (by decide)).1 9 rfl,
   (C6_calculate_rendering "3.5-1.5" (.VFloat ⟨2, 1⟩) (by decide) (by decide)).2.1
     ⟨2, 1⟩ rfl (by decide),
   (C6_calculate_rendering "1/2" (.VFloat ⟨1, 2⟩) (by decide) (by decide)).2.2
     ⟨1, 2⟩ rfl (by decide)⟩

/-- A tree containing a construct outside the calculator grammar is
never evaluated to a value: `visit` fails on it (with the error of
whichever check fires first). -/
theorem visit_errors_of_hasBadNode :
    ∀ (n : Node), hasBadNode n = true → ∃ e, visit n = .error e := by
  intro n
  induction n with
  | Expression b ih =>
      intro h
      simp only [hasBadNode] at h
      obtain ⟨e, he⟩ := ih h
      exact ⟨e, by simp [visit, he]⟩
  | BinOp l op r ihl ihr =>
      intro h
      simp only [hasBadNode, Bool.or_eq_true] at h
      rcases h with h | h
      · obtain ⟨e, he⟩ := ihl h
        exact ⟨e, by simp [visit, he, except_bind_error]⟩
      · cases hv : visit l with
        | error e => exact ⟨e, by simp [visit, hv, except_bind_error]⟩
        | ok a =>
            obtain ⟨e, he⟩ := ihr h
            exact ⟨e, by simp [visit, hv, he, except_bind_ok, except_bind_error]⟩
  | UnaryOp op x ih =>
      intro h
      simp only [hasBadNode] at h
      obtain ⟨e, he⟩ := ih h
      exact ⟨e, by simp [visit, he, except_bind_error]⟩
  | Constant c =>
      intro h
      cases c with
      | int n => simp [hasBadNode] at h
      | float q => simp [hasBadNode] at h
      | bool b => simp [hasBadNode] at h
      | str s => exact ⟨.valueError, rfl⟩
      | none => exact ⟨.valueError, rfl⟩
  | Name i => exact fun _ => ⟨.valueError, rfl⟩
  | Call f k ih => exact fun _ => ⟨.valueError, rfl⟩
  | Compare l ih => exact fun _ => ⟨.valueError, rfl⟩
  | Attribute o a ih => exact fun _ => ⟨.valueError, rfl⟩

/-- A non-digit character survives `takeDigits`. -/
theorem mem_takeDigits_snd {c : Char} (hc : c.isDigit = false) :
    ∀ (l : List Char), c ∈ l → c ∈ (takeDigits l).2 := by
  intro l
  induction l with
  | nil => intro h; cases h
  | cons d cs ih =>
      intro h
      by_cases hd : d.isDigit
      · rcases List.mem_cons.mp h with h1 | h2
        · rw [h1] at hc; rw [hd] at hc; cases hc
        · simpa [takeDigits, hd] using ih h2
      · simpa [takeDigits, hd] using h

/-- A character that is neither a digit nor a decimal point survives
`lexNumber`. -/
theorem mem_lexNumber_rest {c : Char} (hdig : c.isDigit = false) (hdot : c ≠ '.') :
    ∀ (l rest : List Char) (v : Value),
      c ∈ l → lexNumber l = some (v, rest) → c ∈ rest := by
  intro l rest v hmem hlex
  have h1 : c ∈ (takeDigits l).2 := mem_takeDigits_snd hdig l hmem
  simp only [lexNumber] at hlex
  split at hlex
  case h_1 r2 heq =>
      rw [heq] at h1
      rcases List.mem_cons.mp h1 with h2 | h2
      · exact absurd h2 hdot
      · have h3 : c ∈ (takeDigits r2).2 := mem_takeDigits_snd hdig r2 h2
        split at hlex
        · cases hlex
        · injection hlex with h4
          have h5 : (takeDigits r2).2 = rest := congrArg Prod.snd h4
          rw [h5] at h3
          exact h3
  case h_2 heq =>
      split at hlex
      · cases hlex
      · injection hlex with h4
        have h5 : (takeDigits l).2 = rest := congrArg Prod.snd h4
        rw [h5] at h1
        exact h1

/-- A disallowed character in a cons list whose head is allowed sits in
the tail. -/
theorem mem_tail_of_allowed {c c0 : Char} {cs : List Char}
    (hc : allowedChar c = false) (h0 : allowedChar c0 = true)
    (hmem : c ∈ c0 :: cs) : c ∈ cs := by
  rcases List.mem_cons.mp hmem with h | h
  · rw [h] at hc; rw [h0] at hc; cases hc
  · exact h

/-- The modelled lexer rejects (with any amount of fuel) every string
containing a character outside the allowed set. -/
theorem tokenize_errors_of_badChar {c : Char} (hc : allowedChar c = false) :
    ∀ (fuel : Nat) (cs : List Char), c ∈ cs → tokenize fuel cs = .error .valueError := by
  have hdig : c.isDigit = false := by
    by_contra h
    rw [Bool.not_eq_false] at h
    simp [allowedChar, h] at hc
  have hdot : c ≠ '.' := by
    intro h
    rw [h] at hc
    simp [allowedChar] at hc
  intro fuel
  induction fuel with
  | zero => intro cs _; rfl
  | succ fuel ih =>
      intro cs hmem
      cases cs with
      | nil => cases hmem
      | cons c0 cs' =>
          simp only [tokenize]
          split_ifs with h1 h2 h3 h4 h5 h6 h7 h8 h9
          · exact ih cs' (mem_tail_of_allowed hc (by rw [h1]; decide) hmem)
          · rw [ih cs' (mem_tail_of_allowed hc (by rw [h2]; decide) hmem)]; rfl
          · rw [ih cs' (mem_tail_of_allowed hc (by rw [h3]; decide) hmem)]; rfl
          · rw [ih cs' (mem_tail_of_allowed hc (by rw [h4]; decide) hmem)]; rfl
          · rw [ih cs' (mem_tail_of_allowed hc (by rw [h5]; decide) hmem)]; rfl
          · rw [ih cs' (mem_tail_of_allowed hc (by rw [h6]; decide) hmem)]; rfl
          · have hcs' : c ∈ cs' := mem_tail_of_allowed hc (by rw [h7]; decide) hmem
            split
            all_goals first
              | (rw [ih _ (mem_tail_of_allowed hc (by decide) hcs')]; rfl)
              | (rw [ih _ hcs']; rfl)
          · have hcs' : c ∈ cs' := mem_tail_of_allowed hc (by rw [h8]; decide) hmem
            split
            all_goals first
              | (rw [ih _ (mem_tail_of_allowed hc (by decide) hcs')]; rfl)
              | (rw [ih _ hcs']; rfl)
          · split
            case _ v rest heq =>
                have : c ∈ rest := mem_lexNumber_rest hdig hdot (c0 :: cs') rest v hmem heq
                rw [ih rest this]; rfl
            case _ _ => rfl
          · rfl

/-- A string containing any character outside the allowed set fails in
`safe_eval` as a syntax error. -/
theorem safe_eval_errors_of_badChar {s : String} {c : Char}
    (hmem : c ∈ s.toList) (hc : allowedChar c = false) :
    safe_eval s = .error .valueError := by
  have ht := tokenize_errors_of_badChar hc (s.toList.length + 1) s.toList hmem
  unfold safe_eval parse
  rw [ht]
  rfl

/-- **C1 (counterexample).** The claim says no boolean literal ever
evaluates to a value and that no node kind outside {numeric literal,
`UnaryOp`, `BinOp`} is accepted by the evaluator — but the source's
`isinstance(node.value, (int, float))` check (line 59) *accepts*
`True`/`False`, because Python's `bool` is a subclass of `int`: the
evaluator returns the boolean as a value instead of raising. -/
theorem C1_counterexample :
    visit (.Constant (.bool true)) = .ok (.VBool true) ∧
    visit (.Expression (.Constant (.bool false))) = .ok (.VBool false) := by
  decide

/-- **C1 (amended).** Inputs with identifiers, calls, or string literals
are rejected, and so is every tree node kind outside {`Constant`
accepted by the `isinstance` check, `UnaryOp`, `BinOp`} — with the one
exception the code forces: boolean constants pass that check (Python
`bool` subclasses `int`) and evaluate to a value (`C1_counterexample`);
no GUI input can produce one.  At the string level: any input containing
a character outside `0-9 . + - * / ( ) %` (so in particular any
identifier, call or literal spelled with letters or quotes) fails as a
syntax error.  At the tree level: identifiers, calls, comparisons,
attribute accesses and string or `None` constants always evaluate to an
error, never to a value. -/
theorem C1_rejects_disallowed_constructs :
    (∀ (s : String) (c : Char), c ∈ s.toList → allowedChar c = false →
        safe_eval s = .error .valueError) ∧
    (∀ (n : Node), hasBadNode n = true → ∀ v, visit n ≠ .ok v) := by
  constructor
  · intro s c hm hc
    exact safe_eval_errors_of_badChar hm hc
  · intro n hbad v hok
    obtain ⟨e, he⟩ := visit_errors_of_hasBadNode n hbad
    rw [hok] at he
    cases he

theorem C1_rejects_disallowed_constructs_witness :
    safe_eval "foo(2)" = .error .valueError ∧
    visit (.Name "x") ≠ .ok (.VInt 0) ∧
    visit (.Constant (.str "2")) ≠ .ok (.VInt 2) ∧
    visit (.BinOp (.Constant (.int 1)) .Add (.Call (.Name "f") 0)) ≠ .ok (.VInt 1) :=
  ⟨C1_rejects_disallowed_constructs.1 "foo(2)" 'f' (by decide) (by decide),
   C1_rejects_disallowed_constructs.2 (.Name "x") (by decide) (.VInt 0),
   C1_rejects_disallowed_constructs.2 (.Constant (.str "2")) (by decide) (.VInt 2),
   C1_rejects_disallowed_constructs.2
     (.BinOp (.Constant (.int 1)) .Add (.Call (.Name "f") 0)) (by decide) (.VInt 1)⟩

end Calc
